import Mathlib

/-!
Verification of the AWX external-logging handler (`awx/main/utils/handlers.py`)
against its natural-language specification.

The development shallowly embeds the handler's pure decision logic:
* Python string primitives used by the handler (`startswith`, slicing, `or`),
* the parts of the Python 2.7 `urlparse` library the handler calls
  (`urlsplit`, `urlunsplit`, the `hostname`/`port` properties),
* a model of the `json` library (`dumps`/`loads`) over a JSON value type,
* `BaseHTTPSHandler.get_http_host`, `get_post_kwargs`, `skip_log`, `emit`,
  `perform_test`'s future-checking loop, and
  `VerboseThreadPoolExecutor`'s rate-limited failure logging.

Exceptions are modelled with `Except`; Python `None` for settings values is
modelled with `Option`.
-/

set_option autoImplicit false

namespace AwxHandlers

/-! ### Python string primitives -/

/-- Boolean list-prefix test, used to model Python `str.startswith`. -/
def listPrefixB : List Char → List Char → Bool
  | [], _ => true
  | _ :: _, [] => false
  | a :: as, b :: bs => a == b && listPrefixB as bs

/-- Model of Python `s.startswith(pre)`. -/
def pystartswith (s pre : String) : Bool :=
  listPrefixB pre.toList s.toList

/-- Model of Python slicing `s[n:]` (empty when `n` exceeds the length). -/
def pydrop (s : String) (n : Nat) : String :=
  String.mk (s.toList.drop n)

/-- Model of Python `self.host or ''`: `None` and the empty string are falsy. -/
def pyhost : Option String → String
  | none => ""
  | some s => s

/-- Split a character list at the first occurrence of `c`; `none` when absent. -/
def splitFirst (cs : List Char) (c : Char) : Option (List Char × List Char) :=
  if cs.contains c then
    some (cs.takeWhile (· ≠ c), (cs.dropWhile (· ≠ c)).drop 1)
  else
    none

/-- Everything after the last occurrence of `c` (model of `s.split(c)[-1]`);
the whole list when `c` is absent. -/
def afterLast (cs : List Char) (c : Char) : List Char :=
  (cs.reverse.takeWhile (· ≠ c)).reverse

/-- Decimal value of a digit list (model of `int(s, 10)` on all-digit input). -/
def natOfDigits (cs : List Char) : Nat :=
  cs.foldl (fun n c => n * 10 + (c.toNat - 48)) 0

/-- Model of Python `str.lower`. -/
def pylower (s : String) : String :=
  String.mk (s.toList.map Char.toLower)

/-! ### JSON model (the parts of the Python `json` library the handler uses) -/

/-- JSON values as produced by `json.loads` on the handler's payloads:
strings, integers and objects. -/
inductive JVal : Type where
  | jstr (s : String)
  | jnum (n : Int)
  | jobj (fields : List (String × JVal))
deriving Repr

/-- A decoded JSON object, modelling a Python dict with unique keys. -/
abbrev Dict := List (String × JVal)

/-- Dict lookup (first matching key), modelling `d[k]` / `k in d`. -/
def dget? (d : Dict) (k : String) : Option JVal :=
  match d with
  | [] => none
  | (k1, v) :: rest => if k1 = k then some v else dget? rest k

/-- Dict store `d[k] = v`: replaces the first binding of `k`, else appends. -/
def dinsert (d : Dict) (k : String) (v : JVal) : Dict :=
  match d with
  | [] => [(k, v)]
  | (k1, v1) :: rest => if k1 = k then (k, v) :: rest else (k1, v1) :: dinsert rest k v

/-- Dict removal, modelling `d.pop(k)`'s effect on the mapping. -/
def derase (d : Dict) (k : String) : Dict :=
  d.filter (fun kv => kv.1 ≠ k)

/-- Model of Python `d1.update(d2)`: store every binding of `d2` into `d1`. -/
def dupdate (d1 d2 : Dict) : Dict :=
  d2.foldl (fun acc kv => dinsert acc kv.1 kv.2) d1

mutual
/-- Model of `json.dumps` with its default separators.  String escaping is not
modelled; the handler's payload keys and values contain no quotes. -/
def json_dumps : JVal → String
  | .jstr s => "\"" ++ s ++ "\""
  | .jnum n => toString n
  | .jobj fields => "\x7b" ++ dumpMembers fields ++ "\x7d"

/-- Serialize the members of a JSON object, comma-separated. -/
def dumpMembers : List (String × JVal) → String
  | [] => ""
  | [(k, v)] => "\"" ++ k ++ "\": " ++ json_dumps v
  | (k, v) :: rest => "\"" ++ k ++ "\": " ++ json_dumps v ++ ", " ++ dumpMembers rest
end

/-- Skip JSON whitespace. -/
def skipWs : List Char → List Char
  | c :: cs => if c = ' ' ∨ c = '\t' ∨ c = '\n' ∨ c = '\r' then skipWs cs else c :: cs
  | [] => []

/-- Parse a decimal integer token with optional leading minus sign. -/
def parseIntTok (cs : List Char) : Option (Int × List Char) :=
  match cs with
  | '-' :: rest =>
    let ds := rest.takeWhile Char.isDigit
    if ds = [] then none else some (-(natOfDigits ds : Int), rest.drop ds.length)
  | _ =>
    let ds := cs.takeWhile Char.isDigit
    if ds = [] then none else some ((natOfDigits ds : Int), cs.drop ds.length)

mutual
/-- Fueled recursive-descent parser for `JVal`, modelling `json.loads`. -/
def parseJVal : Nat → List Char → Option (JVal × List Char)
  | 0, _ => none
  | f + 1, cs =>
    match skipWs cs with
    | '"' :: rest =>
        (match rest.dropWhile (· ≠ '"') with
         | '"' :: r => some (JVal.jstr (String.mk (rest.takeWhile (· ≠ '"'))), r)
         | _ => none)
    | '{' :: rest =>
        (match skipWs rest with
         | '}' :: r => some (.jobj [], r)
         | cs2 => parseMembers f cs2 [])
    | cs2 => (parseIntTok cs2).map (fun p => (JVal.jnum p.1, p.2))

/-- Parse the members of a JSON object after its opening brace.  Duplicate
keys keep the last binding, as Python's `json.loads` does. -/
def parseMembers : Nat → List Char → Dict → Option (JVal × List Char)
  | 0, _, _ => none
  | f + 1, cs, acc =>
    match skipWs cs with
    | '"' :: rest =>
      (match rest.dropWhile (· ≠ '"') with
       | '"' :: r1 =>
         (match skipWs r1 with
          | ':' :: r2 =>
            (match parseJVal f r2 with
             | none => none
             | some (v, r3) =>
               let acc2 := dinsert acc (String.mk (rest.takeWhile (· ≠ '"'))) v
               match skipWs r3 with
               | ',' :: r4 => parseMembers f r4 acc2
               | '}' :: r4 => some (.jobj acc2, r4)
               | _ => none)
          | _ => none)
       | _ => none)
    | _ => none
end

/-- Model of `json.loads`: `none` models the `ValueError` raised on
malformed input. -/
def json_loads (s : String) : Option JVal :=
  match parseJVal (2 * s.length + 2) s.toList with
  | some (v, rest) => if skipWs rest = [] then some v else none
  | none => none

/-! ### Model of Python 2.7 `urlparse.urlsplit` / `urlunsplit` -/

/-- Characters allowed in a URL scheme by `urlparse`. -/
def scheme_chars : List Char :=
  "abcdefghijklmnopqrstuvwxyzABCDEFGHIJKLMNOPQRSTUVWXYZ0123456789+-.".toList

/-- The result of `urlsplit`, mirroring `urlparse.SplitResult`. -/
structure SplitResult where
  scheme : String
  netloc : String
  path : String
  query : String
  fragment : String
deriving Repr, DecidableEq

/-- Model of `_splitnetloc`: the netloc extends to the next `/`, `?` or `#`. -/
def splitnetloc (cs : List Char) : List Char × List Char :=
  (cs.takeWhile (fun c => c ≠ '/' ∧ c ≠ '?' ∧ c ≠ '#'),
   cs.dropWhile (fun c => c ≠ '/' ∧ c ≠ '?' ∧ c ≠ '#'))

/-- Model of Python 2.7 `urlparse.urlsplit`.  The `.error` case models the
`ValueError("Invalid IPv6 URL")` raised for a netloc with a mismatched
square bracket. -/
def urlsplit (url : String) : Except Unit SplitResult :=
  let cs := url.toList
  let schemeRest : String × List Char :=
    match splitFirst cs ':' with
    | some (pre, after) =>
      if pre.length > 0 then
        if String.mk pre = "http" then ("http", after)
        else if pre.all (fun c => scheme_chars.contains c) then
          if after = [] ∨ after.any (fun c => ¬ c.isDigit) then
            (pylower (String.mk pre), after)
          else ("", cs)
        else ("", cs)
      else ("", cs)
    | none => ("", cs)
  let scheme := schemeRest.1
  let rest := schemeRest.2
  let netlocRest : List Char × List Char :=
    if rest.take 2 = ['/', '/'] then splitnetloc (rest.drop 2) else ([], rest)
  let netloc := netlocRest.1
  let rest2 := netlocRest.2
  if (netloc.contains '[' && !(netloc.contains ']')) ||
     (netloc.contains ']' && !(netloc.contains '[')) then
    .error ()
  else
    let fragSplit : List Char × List Char :=
      match splitFirst rest2 '#' with
      | some (a, b) => (a, b)
      | none => (rest2, [])
    let querySplit : List Char × List Char :=
      match splitFirst fragSplit.1 '?' with
      | some (a, b) => (a, b)
      | none => (fragSplit.1, [])
    .ok ⟨scheme, String.mk netloc, String.mk querySplit.1,
         String.mk querySplit.2, String.mk fragSplit.2⟩

/-- Model of `SplitResult.hostname` (Python 2.7 `ResultMixin.hostname`). -/
def SplitResult.hostname (r : SplitResult) : Option String :=
  let netloc := afterLast r.netloc.toList '@'
  if netloc.contains '[' && netloc.contains ']' then
    some (pylower (String.mk ((netloc.takeWhile (· ≠ ']')).drop 1)))
  else if netloc.contains ':' then
    some (pylower (String.mk (netloc.takeWhile (· ≠ ':'))))
  else if netloc = [] then
    none
  else
    some (pylower (String.mk netloc))

/-- Model of `SplitResult.port` (Python 2.7 `ResultMixin.port`).  The `.error`
case models the `ValueError` that `int(port, 10)` raises when the text after
the colon is empty or not all digits. -/
def SplitResult.portE (r : SplitResult) : Except Unit (Option Nat) :=
  let n1 := afterLast r.netloc.toList '@'
  let n2 := afterLast n1 ']'
  match splitFirst n2 ':' with
  | none => .ok none
  | some (_, afterC) =>
    let portStr := afterC.takeWhile (· ≠ ':')
    if portStr ≠ [] ∧ portStr.all Char.isDigit then .ok (some (natOfDigits portStr))
    else .error ()

/-- Model of `urlparse.urlunsplit`. -/
def urlunsplit (scheme netloc path query fragment : String) : String :=
  let url0 := path
  let url1 :=
    if netloc ≠ "" ∨ url0.toList.take 2 = ['/', '/'] then
      "//" ++ netloc ++
        (if url0 ≠ "" ∧ url0.toList.take 1 ≠ ['/'] then "/" ++ url0 else url0)
    else url0
  let url2 := if scheme ≠ "" then scheme ++ ":" ++ url1 else url1
  let url3 := if query ≠ "" then url2 ++ "?" ++ query else url2
  if fragment ≠ "" then url3 ++ "#" ++ fragment else url3

/-! ### The handler embedding (`BaseHTTPSHandler`) -/

/-- Python exceptions relevant to the handler's control flow. -/
inductive PyExn : Type where
  | valueError
  | keyError
  | typeError
  | keyboardInterrupt
  | systemExit
  | other (s : String)
deriving Repr, DecidableEq

/-- True exactly for the process-termination exceptions that
`emit` re-raises. -/
def PyExn.isExit : PyExn → Bool
  | .keyboardInterrupt => true
  | .systemExit => true
  | _ => false

/-- The handler's per-instance settings (`PARAM_NAMES` fields of
`BaseHTTPSHandler`); every field may be Python `None`, except the flags
which the claims exercise only with booleans. -/
structure HandlerCfg where
  host : Option String
  port : Option Nat
  message_type : Option String
  enabled_loggers : Option (List String)
  indv_facts : Bool
  enabled_flag : Bool
  http_timeout : Option Nat
deriving Repr

/-- Lines 159-162 of `get_http_host`: `port = parsed.port or self.port`
inside `try`, with `except ValueError: port = self.port`.  A parsed port of
`0` is falsy in Python, so it also falls back to the explicit setting. -/
def effective_port (parsedPort : Except Unit (Option Nat)) (explicit : Option Nat) :
    Option Nat :=
  match parsedPort with
  | .ok (some p) => if p = 0 then explicit else some p
  | .ok none => explicit
  | .error _ => explicit

/-- Python `'%s:%s' % (parsed.hostname, port)` renders `None` as `"None"`. -/
def hostname_str (r : SplitResult) : String :=
  match r.hostname with
  | some h => h
  | none => "None"

/-- Model of `BaseHTTPSHandler.get_http_host`.  The `.error` result models a
propagated `ValueError` from `urlsplit` (mismatched IPv6 bracket), which is
outside the `try` block in the source. -/
def get_http_host (host? : Option String) (port? : Option Nat) :
    Except Unit String := do
  let host0 := pyhost host?
  let sp0 ← urlsplit host0
  let host1 := if sp0.scheme = "" then "http://" ++ host0 else host0
  let parsed ← urlsplit host1
  let port := effective_port parsed.portE port?
  match port with
  | some p =>
    if p = 80 then .ok host1
    else
      .ok (urlunsplit parsed.scheme (hostname_str parsed ++ ":" ++ toString p)
            parsed.path parsed.query parsed.fragment)
  | none => .ok host1

/-- Payload argument of `_send` / `get_post_kwargs`: either a dict
(fan-out payloads) or an already-serialized string (the formatter output). -/
inductive PayloadArg : Type where
  | pdict (d : Dict)
  | pstr (s : String)
deriving Repr

/-- Model of `BaseHTTPSHandler.get_post_kwargs`, returning the request body
(the `data=` keyword).  The `.error` result models the `ValueError` raised
by `json.loads` on a non-dict payload that is not valid JSON. -/
def get_post_kwargs (mt : Option String) (p : PayloadArg) : Except PyExn String :=
  if mt = some "splunk" then
    match (match p with
           | .pdict d => some (JVal.jobj d)
           | .pstr s => json_loads s) with
    | some v => .ok (json_dumps (.jobj [("event", v)]))
    | none => .error .valueError
  else
    match p with
    | .pdict d => .ok (json_dumps (.jobj d))
    | .pstr s => .ok s

/-- Model of `BaseHTTPSHandler.skip_log`. -/
def skip_log (host : Option String) (enabled_flag : Bool)
    (enabled_loggers : Option (List String)) (logger_name : String) : Bool :=
  if host == some "" || !enabled_flag then true
  else if !(pystartswith logger_name "awx.analytics") then false
  else
    match enabled_loggers with
    | none => true
    | some ls => !(ls.contains (pydrop logger_name 14))

/-- An outbound HTTP POST as handed to the futures session: target URL and
serialized body. -/
structure Post where
  url : String
  body : String
deriving Repr, DecidableEq

/-- Model of `BaseHTTPSHandler._send`: resolve the URL, build the body. -/
def send (cfg : HandlerCfg) (p : PayloadArg) : Except PyExn Post := do
  let url ← match get_http_host cfg.host cfg.port with
            | .ok u => Except.ok u
            | .error _ => Except.error PyExn.valueError
  let body ← get_post_kwargs cfg.message_type p
  .ok ⟨url, body⟩

/-- The three module names recognized for per-item fan-out. -/
def moduleNames : List String := ["services", "packages", "files"]

/-- The fan-out loop of `emit`: for every item of the popped sub-mapping,
send the base payload merged with that item's fields.  A non-dict item makes
`dict.update` raise, modelled as `typeError`. -/
def fanout_sends (cfg : HandlerCfg) (base : Dict) :
    List (String × JVal) → Except PyExn (List Post)
  | [] => .ok []
  | (_, JVal.jobj item) :: rest => do
      let post ← send cfg (.pdict (dupdate base item))
      let posts ← fanout_sends cfg base rest
      .ok (post :: posts)
  | (_, _) :: _ => .error .typeError

/-- The body of `emit`'s `try` block, after `payload = self.format(record)`
succeeded with serialized payload `payload`. -/
def emitBody (cfg : HandlerCfg) (name : String) (payload : String) :
    Except PyExn (List Post) :=
  if cfg.indv_facts then
    match json_loads payload with
    | none => .error .valueError
    | some pd =>
      if pystartswith name "awx.analytics.system_tracking" then
        match pd with
        | .jobj d =>
          (match dget? d "module_name" with
           | none => .error .keyError
           | some mv =>
             match mv with
             | .jstr m =>
               if moduleNames.contains m then
                 match dget? d m with
                 | none => .error .keyError
                 | some (.jobj facts) => fanout_sends cfg (derase d m) facts
                 | some _ => .error .typeError
               else (send cfg (.pstr payload)).map (fun p => [p])
             | _ => (send cfg (.pstr payload)).map (fun p => [p]))
        | _ => .error .typeError
      else (send cfg (.pstr payload)).map (fun p => [p])
  else (send cfg (.pstr payload)).map (fun p => [p])

/-- Model of `BaseHTTPSHandler.emit`.  `formatted` is the outcome of the
external formatter call `self.format(record)`.  Result states:
`.ok (some posts)` — a list was returned; `.ok none` — an exception was
handled via `self.handleError(record)` and the function fell through,
returning Python `None`; `.error e` — the exception propagated. -/
def emit (cfg : HandlerCfg) (name : String) (formatted : Except PyExn String) :
    Except PyExn (Option (List Post)) :=
  if skip_log cfg.host cfg.enabled_flag cfg.enabled_loggers name then
    .ok (some [])
  else
    match (do let p ← formatted; emitBody cfg name p : Except PyExn (List Post)) with
    | .ok posts => .ok (some posts)
    | .error e => if e.isExit then .error e else .ok none

/-! ### Rate-limited failure logging (`VerboseThreadPoolExecutor`) -/

/-- One failure-handling step of `VerboseThreadPoolExecutor.submit`'s
`_wrapped`: at failure time `t` with rate-limit state `last`, a log line is
emitted (and the state updated) iff more than 10 seconds have elapsed. -/
def rl_process (last : ℚ) : List ℚ → List ℚ
  | [] => []
  | t :: ts => if 10 < t - last then t :: rl_process t ts else rl_process last ts

/-! ### Connectivity self-test (`BaseHTTPSHandler.perform_test`) -/

/-- An HTTP response as seen by the self-test loop. -/
structure HttpResp where
  status_code : Nat
  reason : Option String
deriving Repr, DecidableEq

/-- Model of `requests.Response.ok`: true iff the status is below 400. -/
def HttpResp.respOk (r : HttpResp) : Bool :=
  decide (r.status_code < 400)

/-- The message of the `LoggingConnectivityException` built for a non-ok
response: `': '.join([str(resp.status_code), resp.reason or ''])`. -/
def connectivity_error_text (r : HttpResp) : String :=
  toString r.status_code ++ ": " ++
    (match r.reason with
     | some s => s
     | none => "")

/-- The future-checking loop of `perform_test` (lines 119-127): each future
resolves to a response or raises a `RequestException` (carried as its
message).  `some msg` models the `LoggingConnectivityException(msg)` raised;
`none` means the test passed. -/
def perform_test_check : List (Except String HttpResp) → Option String
  | [] => none
  | .error e :: _ => some e
  | .ok r :: rest =>
    if r.respOk then perform_test_check rest
    else some (connectivity_error_text r)

/-- The body `get_post_kwargs` produces for a dict payload: the Splunk
`event` envelope for aggregator type `splunk`, plain serialization
otherwise. -/
def bodyFor (mt : Option String) (d : Dict) : String :=
  if mt = some "splunk" then json_dumps (.jobj [("event", .jobj d)])
  else json_dumps (.jobj d)

/-! ### Helper lemmas -/

theorem pystartswith_analytics (sub : String) :
    pystartswith ("awx.analytics." ++ sub) "awx.analytics" = true := by
  cases sub with
  | mk data => rfl

theorem pydrop_analytics (sub : String) :
    pydrop ("awx.analytics." ++ sub) 14 = sub := by
  cases sub with
  | mk data => rfl

theorem dget?_derase (d : Dict) (k : String) : dget? (derase d k) k = none := by
  induction d with
  | nil => rfl
  | cons kv rest ih =>
    obtain ⟨k1, v⟩ := kv
    by_cases h : k1 = k
    · simpa [derase, List.filter_cons, h] using ih
    · simpa [derase, List.filter_cons, h, dget?] using ih

theorem dget?_dinsert_ne (d : Dict) (k1 k : String) (v : JVal) (h : k1 ≠ k) :
    dget? (dinsert d k1 v) k = dget? d k := by
  induction d with
  | nil => simp [dinsert, dget?, h]
  | cons kv rest ih =>
    obtain ⟨k2, v2⟩ := kv
    by_cases h2 : k2 = k1
    · subst h2
      simp [dinsert, dget?, h]
    · simp only [dinsert, h2, if_false]
      by_cases h3 : k2 = k
      · simp [dget?, h3]
      · simp [dget?, h3, ih]

theorem dget?_dupdate_none (d1 d2 : Dict) (k : String) (h : dget? d2 k = none) :
    dget? (dupdate d1 d2) k = dget? d1 k := by
  induction d2 generalizing d1 with
  | nil => rfl
  | cons kv rest ih =>
    obtain ⟨k2, v2⟩ := kv
    simp only [dget?] at h
    by_cases h2 : k2 = k
    · simp [h2] at h
    · simp only [h2, if_false] at h
      show dget? (dupdate (dinsert d1 k2 v2) rest) k = dget? d1 k
      rw [ih (dinsert d1 k2 v2) h, dget?_dinsert_ne d1 k2 k v2 h2]

theorem get_post_kwargs_pdict (mt : Option String) (d : Dict) :
    get_post_kwargs mt (.pdict d) = .ok (bodyFor mt d) := by
  unfold get_post_kwargs bodyFor
  split <;> rfl

theorem send_pdict (cfg : HandlerCfg) (u : String) (d : Dict)
    (hurl : get_http_host cfg.host cfg.port = .ok u) :
    send cfg (.pdict d) = .ok ⟨u, bodyFor cfg.message_type d⟩ := by
  simp [send, hurl, get_post_kwargs_pdict, Bind.bind, Except.bind]

theorem fanout_sends_eq (cfg : HandlerCfg) (base : Dict) (u : String)
    (facts : List (String × Dict))
    (hurl : get_http_host cfg.host cfg.port = .ok u) :
    fanout_sends cfg base (facts.map (fun kv => (kv.1, JVal.jobj kv.2))) =
      .ok (facts.map (fun kv =>
        (⟨u, bodyFor cfg.message_type (dupdate base kv.2)⟩ : Post))) := by
  induction facts with
  | nil => rfl
  | cons kv rest ih =>
    obtain ⟨k, item⟩ := kv
    simp only [List.map_cons, fanout_sends, send_pdict cfg u _ hurl, ih,
      Bind.bind, Except.bind]

theorem get_http_host_eq (h? : Option String) (p? : Option Nat)
    (r0 r1 : SplitResult)
    (h0 : urlsplit (pyhost h?) = .ok r0)
    (h1 : urlsplit (if r0.scheme = "" then "http://" ++ pyhost h? else pyhost h?) =
      .ok r1) :
    get_http_host h? p? =
      (match effective_port r1.portE p? with
       | some p =>
         if p = 80 then
           .ok (if r0.scheme = "" then "http://" ++ pyhost h? else pyhost h?)
         else
           .ok (urlunsplit r1.scheme (hostname_str r1 ++ ":" ++ toString p)
                 r1.path r1.query r1.fragment)
       | none =>
         .ok (if r0.scheme = "" then "http://" ++ pyhost h? else pyhost h?)) := by
  simp only [get_http_host, h0, h1, Bind.bind, Except.bind]

theorem rl_process_lb (ts : List ℚ) (last t : ℚ) (h : t ∈ rl_process last ts) :
    last + 10 < t := by
  induction ts generalizing last with
  | nil => simp [rl_process] at h
  | cons x rest ih =>
    simp only [rl_process] at h
    split at h
    case isTrue hx =>
      rcases List.mem_cons.mp h with h1 | h1
      · subst h1; linarith
      · have := ih x h1; linarith
    case isFalse hx => exact ih last h

theorem rl_process_pairwise (ts : List ℚ) (last : ℚ) :
    (rl_process last ts).Pairwise (fun a b => a + 10 < b) := by
  induction ts generalizing last with
  | nil => simp [rl_process]
  | cons x rest ih =>
    simp only [rl_process]
    split
    case isTrue hx =>
      exact List.pairwise_cons.mpr ⟨fun b hb => rl_process_lb rest x b hb, ih x⟩
    case isFalse hx => exact ih last

theorem pairwise_window_le_one (l : List ℚ) (a : ℚ)
    (hp : l.Pairwise (fun x y => x + 10 < y)) :
    (l.countP (fun t => decide (a ≤ t) && decide (t ≤ a + 10))) ≤ 1 := by
  induction l with
  | nil => simp
  | cons x rest ih =>
    have htail := (List.pairwise_cons.mp hp).2
    have hhead := (List.pairwise_cons.mp hp).1
    rw [List.countP_cons]
    by_cases hx : (decide (a ≤ x) && decide (x ≤ a + 10)) = true
    · have hax : a ≤ x := by
        have := (Bool.and_eq_true _ _).mp hx
        exact of_decide_eq_true this.1
      have hrest0 : rest.countP (fun t => decide (a ≤ t) && decide (t ≤ a + 10)) = 0 := by
        apply List.countP_eq_zero.mpr
        intro t ht
        have h10 : x + 10 < t := hhead t ht
        have : ¬ (t ≤ a + 10) := by linarith
        simp [this]
      simp [hx, hrest0]
    · simp only [hx, if_false]
      simpa using ih htail

theorem rl_process_chain_all (ts : List ℚ) (last : ℚ)
    (h : List.Chain' (fun x y => x + 10 < y) (last :: ts)) :
    rl_process last ts = ts := by
  induction ts generalizing last with
  | nil => rfl
  | cons x rest ih =>
    rw [List.chain'_cons] at h
    simp only [rl_process]
    rw [if_pos (by linarith [h.1]), ih x h.2]

/-! ### Claim theorems -/

/-- C5: failure logging inside the dispatch pool is rate limited.  For an
arbitrary sequence of failure times — in particular one with several
failures inside a single window — the log timestamps produced by
`VerboseThreadPoolExecutor.submit`'s wrapper (modelled by `rl_process`, one
atomic check-and-update per failure, initial state 0) contain at most one
entry in any closed 10-second window.  Separately, when consecutive
failures are each more than 10 seconds apart (and the first occurs more
than 10 seconds after time 0), every failure produces exactly one log
entry. -/
theorem C5_rate_limited_failure_log (times : List ℚ) (a : ℚ) (times2 : List ℚ)
    (hgap : List.Chain' (fun x y => x + 10 < y) (0 :: times2)) :
    ((rl_process 0 times).countP
      (fun t => decide (a ≤ t) && decide (t ≤ a + 10))) ≤ 1 ∧
    rl_process 0 times2 = times2 := by
  constructor
  · exact pairwise_window_le_one _ a (rl_process_pairwise times 0)
  · exact rl_process_chain_all times2 0 hgap

/-- Witness for C5.  Failures at 100, 105, 120: the failure at 105 falls
within 10 seconds of the logged failure at 100 and is suppressed
(`rl_process` logs only 100 and 120), and the window `[99, 109]` — which
contains both failures 100 and 105 — holds exactly one log entry.
Failures at 100, 115, 130 (all gaps above 10) each log. -/
theorem C5_rate_limited_failure_log_witness :
    rl_process 0 [(100 : ℚ), 105, 120] = [100, 120] ∧
    ((rl_process 0 [(100 : ℚ), 105, 120]).countP
      (fun t => decide ((99 : ℚ) ≤ t) && decide (t ≤ 99 + 10))) ≤ 1 ∧
    rl_process 0 [(100 : ℚ), 115, 130] = [100, 115, 130] := by
  have h := C5_rate_limited_failure_log [100, 105, 120] 99 [100, 115, 130]
    (by norm_num [List.chain'_cons])
  exact ⟨by norm_num [rl_process], h.1, h.2⟩

/-- C3: `skip_log` skips everything when the host is the empty string or the
enabled flag is false; otherwise logger names outside the `awx.analytics`
namespace are never skipped, and a name `awx.analytics.<sub>` is skipped
exactly when the enabled-logger set is absent or does not contain `<sub>`. -/
theorem C3_skip_log_rule (h1 : Option String) (f1 : Bool)
    (e1 : Option (List String)) (n1 : String)
    (h2 : Option String) (e2 : Option (List String)) (n2 : String)
    (h3 : Option String) (ls : List String) (sub : String)
    (hh1 : h1 = some "" ∨ f1 = false)
    (hh2 : h2 ≠ some "") (hn2 : pystartswith n2 "awx.analytics" = false)
    (hh3 : h3 ≠ some "") :
    skip_log h1 f1 e1 n1 = true ∧
    skip_log h2 true e2 n2 = false ∧
    skip_log h3 true none ("awx.analytics." ++ sub) = true ∧
    skip_log h3 true (some ls) ("awx.analytics." ++ sub) = !(ls.contains sub) := by
  refine ⟨?_, ?_, ?_, ?_⟩
  · rcases hh1 with h | h
    · simp [skip_log, h]
    · simp [skip_log, h]
  · have : (h2 == some "") = false := by
      simpa using hh2
    simp [skip_log, this, hn2]
  · have : (h3 == some "") = false := by
      simpa using hh3
    simp [skip_log, this, pystartswith_analytics]
  · have : (h3 == some "") = false := by
      simpa using hh3
    simp [skip_log, this, pystartswith_analytics, pydrop_analytics]

/-- Witness for C3: empty host skips; `awx.main` with a non-empty host and
the flag on is forwarded; `awx.analytics.system_tracking` follows the
allow-list. -/
theorem C3_skip_log_rule_witness :
    skip_log (some "") true (some ["system_tracking"]) "awx.main" = true ∧
    skip_log (some "http://logs") true (some []) "awx.main" = false ∧
    skip_log (some "http://logs") true none
      ("awx.analytics." ++ "system_tracking") = true ∧
    skip_log (some "http://logs") true (some ["system_tracking"])
      ("awx.analytics." ++ "system_tracking") =
      !(["system_tracking"].contains "system_tracking") := by
  exact C3_skip_log_rule (some "") true (some ["system_tracking"]) "awx.main"
    (some "http://logs") (some []) "awx.main"
    (some "http://logs") ["system_tracking"] "system_tracking"
    (Or.inl rfl) (by decide) rfl (by decide)

/-- C9: a `None` host does not trigger the empty-host skip: `skip_log`
compares the host against exactly the empty string, so with `host = None`
and the flag on, a logger outside `awx.analytics` is forwardable, while
`host = ''` skips it. -/
theorem C9_none_host_not_skipped (el : Option (List String)) (name : String)
    (h : pystartswith name "awx.analytics" = false) :
    skip_log none true el name = false ∧
    skip_log (some "") true el name = true := by
  constructor
  · simp [skip_log, h]
  · simp [skip_log]

/-- Witness for C9 at logger name `awx.main`. -/
theorem C9_none_host_not_skipped_witness :
    skip_log none true (some ["system_tracking"]) "awx.main" = false ∧
    skip_log (some "") true (some ["system_tracking"]) "awx.main" = true :=
  C9_none_host_not_skipped (some ["system_tracking"]) "awx.main" rfl

/-- C2 (code bug): `emit`'s docstring and the spec promise a list of futures
in every outcome, but when an exception is handled (delegated to
`handleError`) the function falls through and returns Python `None` — not a
list.  Evaluated here: a filtered record yields `[]`, a normal record yields
a one-element list, and a record whose formatting raised a non-exit
exception yields `None` (modelled `.ok none`). -/
theorem C2_emit_returns_none_on_handled_error :
    emit ⟨some "http://logs", some 8080, some "logstash",
          some ["system_tracking"], false, true, some 5⟩
      "awx.main" (.error (.other "formatting failed")) = .ok none ∧
    emit ⟨some "http://logs", some 8080, some "logstash",
          some ["system_tracking"], false, true, some 5⟩
      "awx.main" (.ok "payload") = .ok (some [⟨"http://logs:8080", "payload"⟩]) ∧
    emit ⟨some "", some 8080, some "logstash",
          some ["system_tracking"], false, true, some 5⟩
      "awx.main" (.ok "payload") = .ok (some []) := by
  exact ⟨rfl, rfl, rfl⟩

/-- C6: no exception other than `KeyboardInterrupt`/`SystemExit` ever
propagates out of `emit`; the process-termination exceptions do re-raise. -/
theorem C6_emit_swallows_exceptions (cfg : HandlerCfg) (name : String)
    (formatted : Except PyExn String)
    (cfg2 : HandlerCfg) (name2 : String) (e : PyExn)
    (hskip : skip_log cfg2.host cfg2.enabled_flag cfg2.enabled_loggers name2 = false)
    (hexit : e.isExit = true) :
    (∀ e2 : PyExn, emit cfg name formatted = .error e2 → e2.isExit = true) ∧
    emit cfg2 name2 (.error e) = .error e := by
  constructor
  · intro e2 h
    simp only [emit] at h
    split at h
    · exact absurd h (by simp)
    · split at h
      · exact absurd h (by simp)
      · split at h
        case isTrue h3 =>
          rename_i e3 _
          cases h
          exact h3
        case isFalse h3 => exact absurd h (by simp)
  · simp only [emit, hskip, if_false, Bool.false_eq_true]
    have hbind : ((Except.error e : Except PyExn String) >>= emitBody cfg2 name2 :
        Except PyExn (List Post)) = .error e := rfl
    rw [show (do let p ← (Except.error e : Except PyExn String); emitBody cfg2 name2 p :
        Except PyExn (List Post)) = .error e from hbind]
    simp [hexit]

/-- Witness for C6: a `SystemExit` raised by the formatter propagates, and
whatever propagates is a process-termination exception. -/
theorem C6_emit_swallows_exceptions_witness :
    emit ⟨some "http://logs", some 8080, some "logstash",
          some ["system_tracking"], false, true, some 5⟩
      "awx.main" (.error .systemExit) = .error .systemExit ∧
    PyExn.isExit .systemExit = true := by
  have h := C6_emit_swallows_exceptions
    ⟨some "http://logs", some 8080, some "logstash",
     some ["system_tracking"], false, true, some 5⟩
    "awx.main" (.error .systemExit)
    ⟨some "http://logs", some 8080, some "logstash",
     some ["system_tracking"], false, true, some 5⟩
    "awx.main" .systemExit rfl rfl
  exact ⟨h.2, h.1 .systemExit h.2⟩

/-- C1 counterexample: with an embedded URL port 8088 and an explicit port
setting 9999, `get_http_host` keeps 8088; the claim demands that the
explicit argument win (9999). -/
theorem C1_counterexample :
    get_http_host (some "https://yoursplunk:8088/services/collector/event")
      (some 9999) =
      .ok "https://yoursplunk:8088/services/collector/event" ∧
    Except.map (fun r => r.portE)
      (urlsplit "https://yoursplunk:8088/services/collector/event") =
      .ok (.ok (some 8088)) ∧
    (8088 : Nat) ≠ 9999 := by
  exact ⟨rfl, rfl, by decide⟩

/-- C1 amended: the URL-embedded port wins.  Whenever the parsed host embeds
a nonzero numeric port `q`, the effective port is `q` regardless of the
explicit setting, and the dispatch URL is rebuilt around `q` (left
unchanged when `q` is 80). -/
theorem C1_amended_embedded_port_wins (h? : Option String) (p? : Option Nat)
    (r0 r1 : SplitResult) (q : Nat)
    (h0 : urlsplit (pyhost h?) = .ok r0)
    (h1 : urlsplit (if r0.scheme = "" then "http://" ++ pyhost h? else pyhost h?) =
      .ok r1)
    (hq : r1.portE = .ok (some q)) (hq0 : q ≠ 0) :
    effective_port r1.portE p? = some q ∧
    get_http_host h? p? =
      (if q = 80 then
        .ok (if r0.scheme = "" then "http://" ++ pyhost h? else pyhost h?)
      else
        .ok (urlunsplit r1.scheme (hostname_str r1 ++ ":" ++ toString q)
              r1.path r1.query r1.fragment)) := by
  have heff : effective_port r1.portE p? = some q := by
    rw [hq]
    simp [effective_port, hq0]
  refine ⟨heff, ?_⟩
  rw [get_http_host_eq h? p? r0 r1 h0 h1, heff]

/-- Witness for C1 amended at the Splunk URL with embedded port 8088 and
explicit setting 9999. -/
theorem C1_amended_embedded_port_wins_witness :
    effective_port
      (SplitResult.portE ⟨"https", "yoursplunk:8088",
        "/services/collector/event", "", ""⟩) (some 9999) = some 8088 ∧
    get_http_host (some "https://yoursplunk:8088/services/collector/event")
      (some 9999) =
      .ok "https://yoursplunk:8088/services/collector/event" := by
  have h := C1_amended_embedded_port_wins
    (some "https://yoursplunk:8088/services/collector/event") (some 9999)
    ⟨"https", "yoursplunk:8088", "/services/collector/event", "", ""⟩
    ⟨"https", "yoursplunk:8088", "/services/collector/event", "", ""⟩
    8088 rfl rfl rfl (by decide)
  exact ⟨h.1, h.2.trans (by rfl)⟩

/-- C10 counterexample: `get_http_host` is not total over arbitrary host
strings: a netloc with a mismatched IPv6 bracket makes `urlsplit` raise
`ValueError` outside the `try` block, and the error propagates. -/
theorem C10_counterexample :
    get_http_host (some "http://[x") (some 9000) = .error () := by
  exact rfl

/-- C10 amended: when the embedded port text is non-numeric (so reading
`parsed.port` raises `ValueError`), the error is caught and the explicit
port setting becomes the effective port; `get_http_host` then returns
normally. -/
theorem C10_amended_valueerror_caught (h? : Option String) (p? : Option Nat)
    (r0 r1 : SplitResult)
    (h0 : urlsplit (pyhost h?) = .ok r0)
    (h1 : urlsplit (if r0.scheme = "" then "http://" ++ pyhost h? else pyhost h?) =
      .ok r1)
    (hval : r1.portE = .error ()) :
    effective_port r1.portE p? = p? ∧
    ∃ s, get_http_host h? p? = .ok s := by
  have heff : effective_port r1.portE p? = p? := by
    rw [hval]
    rfl
  refine ⟨heff, ?_⟩
  rw [get_http_host_eq h? p? r0 r1 h0 h1, heff]
  cases p? with
  | none => exact ⟨_, rfl⟩
  | some p =>
    by_cases hp : p = 80
    · simp only [hp, if_pos rfl]
      exact ⟨_, rfl⟩
    · simp only [if_neg hp]
      exact ⟨_, rfl⟩

/-- Witness for C10 amended at host `http://example.com:bad/path` with
explicit port 9000: the non-numeric embedded port is ignored in favour of
the explicit setting. -/
theorem C10_amended_valueerror_caught_witness :
    effective_port
      (SplitResult.portE ⟨"http", "example.com:bad", "/path", "", ""⟩)
      (some 9000) = some 9000 ∧
    ∃ s, get_http_host (some "http://example.com:bad/path") (some 9000) =
      .ok s := by
  exact C10_amended_valueerror_caught (some "http://example.com:bad/path")
    (some 9000)
    ⟨"http", "example.com:bad", "/path", "", ""⟩
    ⟨"http", "example.com:bad", "/path", "", ""⟩
    rfl rfl rfl

/-- C7: for aggregator type `splunk`, the posted body is always the payload
wrapped under the single top-level key `event` and serialized: a dict
payload is wrapped directly, an already-serialized string payload is parsed
and re-wrapped, and every successful body has `event` as its only top-level
key. -/
theorem C7_splunk_event_envelope (d : Dict) (s : String) (v : JVal)
    (p : PayloadArg) (out : String)
    (hs : json_loads s = some v)
    (hp : get_post_kwargs (some "splunk") p = .ok out) :
    get_post_kwargs (some "splunk") (.pdict d) =
      .ok (json_dumps (.jobj [("event", .jobj d)])) ∧
    get_post_kwargs (some "splunk") (.pstr s) =
      .ok (json_dumps (.jobj [("event", v)])) ∧
    ∃ w, out = json_dumps (.jobj [("event", w)]) := by
  refine ⟨rfl, ?_, ?_⟩
  · simp [get_post_kwargs, hs]
  · cases p with
    | pdict d2 =>
      simp only [get_post_kwargs, if_pos rfl] at hp
      exact ⟨.jobj d2, by cases hp; rfl⟩
    | pstr s2 =>
      simp only [get_post_kwargs, if_pos rfl] at hp
      cases hls : json_loads s2 with
      | none => rw [hls] at hp; cases hp
      | some w => rw [hls] at hp; exact ⟨w, by cases hp; rfl⟩

/-- Witness for C7 on the payload `{"x": 1}` (as dict and as string). -/
theorem C7_splunk_event_envelope_witness :
    get_post_kwargs (some "splunk") (.pdict [("a", .jstr "b")]) =
      .ok (json_dumps (.jobj [("event", .jobj [("a", .jstr "b")])])) ∧
    get_post_kwargs (some "splunk") (.pstr "\x7b\"x\": 1\x7d") =
      .ok (json_dumps (.jobj [("event", .jobj [("x", .jnum 1)])])) ∧
    ∃ w, json_dumps (.jobj [("event", .jobj [("x", .jnum 1)])]) =
      json_dumps (.jobj [("event", w)]) := by
  exact C7_splunk_event_envelope [("a", .jstr "b")] "\x7b\"x\": 1\x7d"
    (.jobj [("x", .jnum 1)]) (.pstr "\x7b\"x\": 1\x7d")
    (json_dumps (.jobj [("event", .jobj [("x", .jnum 1)])])) rfl rfl

/-- C8: the self-test loop passes exactly when every future resolves to a
success response; a `RequestException` raises a connectivity error carrying
the exception text; a non-success response raises one carrying
`status_code: reason`; for a 500 response the text contains `500`. -/
theorem C8_connectivity_test (results : List (Except String HttpResp))
    (e : String) (r : HttpResp) (rest : List (Except String HttpResp))
    (hbad : r.respOk = false) (h500 : r.status_code = 500) :
    (perform_test_check results = none ↔
      ∀ x ∈ results, ∃ resp, x = .ok resp ∧ resp.respOk = true) ∧
    perform_test_check (.error e :: rest) = some e ∧
    perform_test_check (.ok r :: rest) = some (connectivity_error_text r) ∧
    List.IsInfix "500".toList (connectivity_error_text r).toList := by
  refine ⟨?_, rfl, ?_, ?_⟩
  · induction results with
    | nil => simp [perform_test_check]
    | cons x rest2 ih =>
      cases x with
      | error e2 =>
        simp only [perform_test_check]
        constructor
        · intro h; cases h
        · intro h
          obtain ⟨resp, hr, _⟩ := h (.error e2) (List.mem_cons_self _ _)
          cases hr
      | ok r2 =>
        by_cases hok : r2.respOk = true
        · rw [show perform_test_check (.ok r2 :: rest2) = perform_test_check rest2
              from by simp [perform_test_check, hok]]
          rw [ih]
          constructor
          · intro h x hx
            rcases List.mem_cons.mp hx with h1 | h1
            · subst h1; exact ⟨r2, rfl, hok⟩
            · exact h x h1
          · intro h x hx
            exact h x (List.mem_cons_of_mem _ hx)
        · constructor
          · intro h
            exfalso
            simp [perform_test_check, hok] at h
          · intro h
            exfalso
            obtain ⟨resp, hr, hro⟩ := h (.ok r2) (List.mem_cons_self _ _)
            injection hr with hr2
            subst hr2
            exact hok hro
  · simp [perform_test_check, hbad]
  · refine ⟨[], (": " ++ (match r.reason with | some s => s | none => "")).toList, ?_⟩
    simp only [connectivity_error_text, h500,
      show toString (500 : Nat) = "500" from rfl]
    simp only [String.toList, String.data_append, List.nil_append,
      List.append_assoc]

/-- Witness for C8: a passing run, a request error, and a 500 response. -/
theorem C8_connectivity_test_witness :
    perform_test_check [.ok ⟨200, some "OK"⟩] = none ∧
    perform_test_check [.error "connection refused"] =
      some "connection refused" ∧
    perform_test_check [.ok ⟨500, some "Internal Server Error"⟩] =
      some (connectivity_error_text ⟨500, some "Internal Server Error"⟩) ∧
    List.IsInfix "500".toList
      (connectivity_error_text ⟨500, some "Internal Server Error"⟩).toList := by
  have h := C8_connectivity_test [.ok ⟨200, some "OK"⟩] "connection refused"
    ⟨500, some "Internal Server Error"⟩ [] rfl rfl
  refine ⟨h.1.mpr ?_, h.2.1, h.2.2.1, h.2.2.2⟩
  intro x hx
  rcases List.mem_cons.mp hx with h1 | h1
  · exact ⟨⟨200, some "OK"⟩, h1, rfl⟩
  · cases h1

/-- C4: with per-item fan-out enabled, a (non-skipped) `system_tracking`
record whose decoded payload names one of the recognized modules with an
N-item sub-mapping makes `emit` dispatch exactly N payloads, each the base
payload minus the sub-mapping merged with one item's fields; the base
payload itself is never one of them. -/
theorem C4_fanout (cfg : HandlerCfg) (name fstr m u : String) (d : Dict)
    (facts : List (String × Dict))
    (hskip : skip_log cfg.host cfg.enabled_flag cfg.enabled_loggers name = false)
    (hindv : cfg.indv_facts = true)
    (hname : pystartswith name "awx.analytics.system_tracking" = true)
    (hparse : json_loads fstr = some (.jobj d))
    (hmod : dget? d "module_name" = some (.jstr m))
    (hm : moduleNames.contains m = true)
    (hfacts : dget? d m = some (.jobj (facts.map (fun kv => (kv.1, JVal.jobj kv.2)))))
    (hurl : get_http_host cfg.host cfg.port = .ok u)
    (hclean : facts.all (fun kv => (dget? kv.2 m).isNone) = true) :
    emit cfg name (.ok fstr) =
      .ok (some (facts.map (fun kv =>
        (⟨u, bodyFor cfg.message_type (dupdate (derase d m) kv.2)⟩ : Post)))) ∧
    (facts.map (fun kv =>
      (⟨u, bodyFor cfg.message_type (dupdate (derase d m) kv.2)⟩ : Post))).length =
      facts.length ∧
    ∀ kv ∈ facts, dupdate (derase d m) kv.2 ≠ d := by
  refine ⟨?_, List.length_map _ _, ?_⟩
  · simp only [emit, hskip, Bool.false_eq_true, if_false]
    have hb : ((Except.ok fstr : Except PyExn String) >>= emitBody cfg name :
        Except PyExn (List Post)) = emitBody cfg name fstr := rfl
    rw [show (do let p ← (Except.ok fstr : Except PyExn String); emitBody cfg name p :
        Except PyExn (List Post)) = emitBody cfg name fstr from hb]
    simp only [emitBody, hindv, if_true, hparse, hname, hmod, hm, hfacts,
      fanout_sends_eq cfg (derase d m) u facts hurl]
  · intro kv hkv
    have hnone : dget? kv.2 m = none := by
      have h1 := List.all_eq_true.mp hclean kv hkv
      exact Option.isNone_iff_eq_none.mp h1
    intro heq
    have h1 : dget? (dupdate (derase d m) kv.2) m = none := by
      rw [dget?_dupdate_none _ _ _ hnone, dget?_derase]
    rw [heq, hfacts] at h1
    cases h1

/-- Witness for C4: a one-item `services` fan-out record. -/
theorem C4_fanout_witness :
    emit ⟨some "http://logs", some 8080, some "logstash",
          some ["system_tracking"], true, true, some 5⟩
      "awx.analytics.system_tracking"
      (.ok ("\x7b\"module_name\": \"services\", \"services\": " ++
            "\x7b\"svc1\": \x7b\"name\": \"sshd\"\x7d\x7d, \"host\": \"h1\"\x7d")) =
      .ok (some [⟨"http://logs:8080",
        "\x7b\"module_name\": \"services\", \"host\": \"h1\", \"name\": \"sshd\"\x7d"⟩]) ∧
    ∀ kv ∈ [("svc1", [("name", JVal.jstr "sshd")])],
      dupdate (derase [("module_name", JVal.jstr "services"),
        ("services", JVal.jobj [("svc1", JVal.jobj [("name", JVal.jstr "sshd")])]),
        ("host", JVal.jstr "h1")] "services") kv.2 ≠
      [("module_name", JVal.jstr "services"),
       ("services", JVal.jobj [("svc1", JVal.jobj [("name", JVal.jstr "sshd")])]),
       ("host", JVal.jstr "h1")] := by
  have h := C4_fanout
    ⟨some "http://logs", some 8080, some "logstash",
     some ["system_tracking"], true, true, some 5⟩
    "awx.analytics.system_tracking"
    ("\x7b\"module_name\": \"services\", \"services\": " ++
     "\x7b\"svc1\": \x7b\"name\": \"sshd\"\x7d\x7d, \"host\": \"h1\"\x7d")
    "services" "http://logs:8080"
    [("module_name", JVal.jstr "services"),
     ("services", JVal.jobj [("svc1", JVal.jobj [("name", JVal.jstr "sshd")])]),
     ("host", JVal.jstr "h1")]
    [("svc1", [("name", JVal.jstr "sshd")])]
    rfl rfl rfl rfl rfl rfl rfl rfl rfl
  exact ⟨h.1.trans (by rfl), h.2.2⟩

end AwxHandlers
